import Mathlib

/-!
Verification of the Manga-Server library engine: a shallow embedding of the
staging scanner, path sanitizers, import pipeline, library mover, directory
cleanup, archive reader, backup scheduler and progress update, together with
theorems settling the specified properties. Python strings are modelled as
Lean `String`, filesystem paths as component lists with an absolute flag,
Python exceptions as `Except`, and the SQLAlchemy session as explicit state
passing (committed state vs. flushed-but-uncommitted state).
-/

namespace MangaServer

/-! ## String helpers (Python semantics) -/

/-- Python whitespace predicate used by `str.strip` (space, tab, newline,
carriage return, vertical tab, form feed). -/
def pyIsSpace (c : Char) : Bool :=
  c = ' ' || c = '\t' || c = '\n' || c = '\r' || c = Char.ofNat 11 || c = Char.ofNat 12

/-- Python `str.strip()`: drop leading and trailing whitespace. -/
def pyStrip (s : String) : String :=
  (((s.toList.dropWhile pyIsSpace).reverse.dropWhile pyIsSpace).reverse).asString

/-- The double-quote character. -/
def dquote : Char := Char.ofNat 34

/-- The single-quote character. -/
def squote : Char := Char.ofNat 39

/-- Characters removed by the `re.sub` in `sanitize_filename`
(`main.py` line 74): the reserved filesystem set. -/
def forbiddenChars : List Char :=
  ['<', '>', ':', dquote, '/', '\\', '|', '?', '*']

/-- Core of `sanitize_filename` (`main.py` lines 73-75): strip, remove both
quote characters (the two `.replace` calls), remove the reserved filesystem
characters (the `re.sub`), strip again. -/
def sanitize_core (name : String) : String :=
  pyStrip ((((pyStrip name).toList.filter (fun c => c ≠ dquote && c ≠ squote)).filter
    (fun c => !forbiddenChars.contains c)).asString)

/-- Embedding of `sanitize_filename` (`main.py` lines 70-75): "Unknown" for
a falsy (empty) input, otherwise the cleaned string, with "Unknown" as the
final fallback when the cleaned string is empty. -/
def sanitize_filename (name : String) : String :=
  if name = "" then "Unknown"
  else if sanitize_core name = "" then "Unknown"
  else sanitize_core name

/-- Embedding of the inline artist sanitizer of the import pipeline
(`importer.py` line 25): keep letters, digits, space, '-', '_'; then strip. -/
def importer_sanitize (artist : String) : String :=
  pyStrip ((artist.toList.filter
    (fun c => c.isAlpha || c.isDigit || c = ' ' || c = '-' || c = Char.ofNat 95)).asString)

/-- An output character allowed by the specification's `sanitize`:
letters, digits, space, '-', '_'. -/
def specAllowedChar (c : Char) : Bool :=
  c.isAlpha || c.isDigit || c = ' ' || c = '-' || c = Char.ofNat 95

/-! ### Helper lemmas about `pyStrip` -/

theorem mem_pyStrip {c : Char} {s : String} (h : c ∈ (pyStrip s).toList) :
    c ∈ s.toList := by
  have h1 : (pyStrip s).toList =
      ((s.toList.dropWhile pyIsSpace).reverse.dropWhile pyIsSpace).reverse := rfl
  rw [h1] at h
  have h2 := List.mem_reverse.mp h
  have h3 := (List.dropWhile_sublist (l := (s.toList.dropWhile pyIsSpace).reverse)
      (p := pyIsSpace)).mem h2
  have h4 := List.mem_reverse.mp h3
  exact (List.dropWhile_sublist (l := s.toList) (p := pyIsSpace)).mem h4

theorem mem_sanitize_core {c : Char} {s : String} (h : c ∈ (sanitize_core s).toList) :
    c ∈ s.toList ∧ ¬ forbiddenChars.contains c := by
  have h4 := mem_pyStrip h
  have h5 : ((((pyStrip s).toList.filter (fun c => c ≠ dquote && c ≠ squote)).filter
      (fun c => !forbiddenChars.contains c)).asString).toList =
      (((pyStrip s).toList.filter (fun c => c ≠ dquote && c ≠ squote)).filter
      (fun c => !forbiddenChars.contains c)) := rfl
  rw [h5] at h4
  have h6 := List.of_mem_filter h4
  have h7 := List.mem_of_mem_filter h4
  have h8 := List.mem_of_mem_filter h7
  exact ⟨mem_pyStrip h8, by simpa using h6⟩

/-! ## Claim C4: the sanitizer's output alphabet -/

/-- Claim C4 counterexample: the claim says `sanitize` keeps only letters,
digits, space, '-' and '_', but `sanitize_filename` keeps '.' (it only
removes quotes and the reserved filesystem characters), refuting the claim
at the concrete input "a.b". -/
theorem C4_counterexample :
    sanitize_filename "a.b" = "a.b" ∧ '.' ∈ (sanitize_filename "a.b").toList ∧
      specAllowedChar '.' = false := by
  decide

/-- Claim C4 (amended): `sanitize_filename` never returns a string containing
a reserved character `/ \ : * ? " < > |`; it returns "Unknown" on inputs that
strip to the empty string (hence for "" and whitespace-only input), but it
preserves other punctuation rather than keeping only letters, digits, space,
'-', '_'.  The import pipeline's inline sanitizer is the one that keeps only
letters, digits, space, '-', '_', and it returns "" (not "Unknown") for
blank input. -/
theorem C4_amended :
    (∀ s : String, ∀ c ∈ (sanitize_filename s).toList, ¬ forbiddenChars.contains c) ∧
    (∀ s : String, pyStrip s = "" → sanitize_filename s = "Unknown") ∧
    (sanitize_filename "" = "Unknown" ∧ sanitize_filename " " = "Unknown") ∧
    (∀ s : String, ∀ c ∈ (importer_sanitize s).toList, specAllowedChar c) ∧
    importer_sanitize " " = "" := by
  refine ⟨?_, ?_, ⟨by decide, by decide⟩, ?_, by decide⟩
  · intro s c hc
    have hU : ∀ c ∈ ("Unknown" : String).toList, ¬ forbiddenChars.contains c := by decide
    unfold sanitize_filename at hc
    split at hc
    · exact hU c hc
    · split at hc
      · exact hU c hc
      · exact (mem_sanitize_core hc).2
  · intro s hs
    have hcore : sanitize_core s = "" := by
      unfold sanitize_core
      rw [hs]
      rfl
    unfold sanitize_filename
    rw [hcore]
    split <;> rfl
  · intro s c hc
    unfold importer_sanitize at hc
    have h4 := mem_pyStrip hc
    have h5 : ((s.toList.filter
        (fun c => c.isAlpha || c.isDigit || c = ' ' || c = '-' ||
          c = Char.ofNat 95)).asString).toList =
        s.toList.filter (fun c => c.isAlpha || c.isDigit || c = ' ' || c = '-' ||
          c = Char.ofNat 95) := rfl
    rw [h5] at h4
    have h6 := List.of_mem_filter h4
    unfold specAllowedChar
    simpa using h6

/-- Witness for the amended C4 theorem: instantiating its universally
quantified parts on concrete inputs. -/
theorem C4_amended_witness :
    sanitize_filename "  " = "Unknown" :=
  C4_amended.2.1 "  " (by decide)

/-! ## Filesystem path model

A Python path is modelled lexically, exactly the view `os.path.commonpath`,
`os.path.dirname` and `os.path.join` take of it: an absolute-or-relative flag
plus the list of components.  No `..` resolution or symlink following is
performed by any of the modelled functions (nor by the originals). -/

structure PyPath where
  absFlag : Bool
  comps : List String
deriving DecidableEq, Repr

/-- Append extra components: `os.path.join` with component arguments that
contain no separator. -/
def PyPath.join (p : PyPath) (extra : List String) : PyPath :=
  ⟨p.absFlag, p.comps ++ extra⟩

/-- Embedding of `os.path.dirname`: drop the last component. -/
def dirname (p : PyPath) : PyPath :=
  ⟨p.absFlag, p.comps.dropLast⟩

/-- Embedding of `os.path.basename`: the last component ("" if none). -/
def basename (p : PyPath) : String :=
  (p.comps.getLast?).getD ""

/-- Longest common leading run of components, as computed by
`os.path.commonpath` on two paths of the same kind. -/
def commonStem : List String → List String → List String
  | a :: as, b :: bs => if a = b then a :: commonStem as bs else []
  | _, _ => []

/-- Embedding of `os.path.commonpath` on a two-element list: raises
(`.error`) when mixing an absolute and a relative path, otherwise the common
lexical stem. -/
def commonpath (p q : PyPath) : Except Unit PyPath :=
  if p.absFlag = q.absFlag then .ok ⟨p.absFlag, commonStem p.comps q.comps⟩
  else .error ()

/-- Embedding of `os.path.abspath` restricted to the paths this program
builds (sanitized components, no separators): prepend the working directory
to a relative path.  Only ever used for equality comparison. -/
def abspath (cwd : List String) (p : PyPath) : PyPath :=
  if p.absFlag then p else ⟨true, cwd ++ p.comps⟩

/-- The filesystem: the set of existing regular files and the set of
existing directories, each named by its path. -/
structure FS where
  files : List PyPath
  dirs : List PyPath
deriving DecidableEq, Repr

/-- Embedding of `os.path.exists`. -/
def pathExists (fs : FS) (p : PyPath) : Bool :=
  fs.files.contains p || fs.dirs.contains p

/-- An entry strictly below directory `p` (what `os.listdir p` would show,
transitively). -/
def isBelow (p e : PyPath) : Bool :=
  e.absFlag = p.absFlag && e.comps ≠ p.comps && p.comps.isPrefixOf e.comps

/-- Embedding of `not os.listdir(p)`: the directory has no entry below it. -/
def dirEmpty (fs : FS) (p : PyPath) : Bool :=
  (fs.files ++ fs.dirs).all (fun e => !isBelow p e)

/-- Embedding of `os.rmdir`: remove the directory entry (callers have
already checked existence and emptiness). -/
def rmdir (fs : FS) (p : PyPath) : FS :=
  ⟨fs.files, fs.dirs.filter (· ≠ p)⟩

/-- Embedding of `os.makedirs(p, exist_ok=True)`: create the directory and
every missing ancestor. -/
def mkdirs (fs : FS) (p : PyPath) : FS :=
  ⟨fs.files,
    ((p.comps.inits.map (fun cs => PyPath.mk p.absFlag cs)).filter
      (fun q => !fs.dirs.contains q)) ++ fs.dirs⟩

/-! ## Directory cleanup (`cleanup_parent_folders`, `main.py` lines 77-91) -/

/-- The security check of `cleanup_parent_folders`:
`os.path.commonpath([p, root]) == root`.  A `commonpath` exception
(mixing absolute and relative paths) is caught by the function's catch-all
handler with no deletion performed at that level, which coincides with the
check simply failing, so it is folded into `false` here. -/
def underRoot (root p : PyPath) : Bool :=
  match commonpath p root with
  | .ok c => c = root
  | .error _ => false

/-- Embedding of `cleanup_parent_folders(file_path)` (`main.py` 77-91).
`root` is `os.path.abspath(DATA_DIR)`.  The body runs under a catch-all
`except` that only logs, so the embedded function is total.  The guard
`os.path.exists(p) and not os.listdir(p)` is modelled as one boolean that
also requires `p` not to be a regular file: `os.listdir` on a file raises,
and the catch-all then aborts with exactly the effects so far — the same
filesystem the `false` branch yields. -/
def cleanup_parent_folders (root : PyPath) (fs : FS) (filePath : PyPath) : FS :=
  if underRoot root (dirname filePath) then
    if pathExists fs (dirname filePath) && !fs.files.contains (dirname filePath)
        && dirEmpty fs (dirname filePath) then
      if underRoot root (dirname (dirname filePath)) then
        if pathExists (rmdir fs (dirname filePath)) (dirname (dirname filePath))
            && !(rmdir fs (dirname filePath)).files.contains (dirname (dirname filePath))
            && dirEmpty (rmdir fs (dirname filePath)) (dirname (dirname filePath)) then
          rmdir (rmdir fs (dirname filePath)) (dirname (dirname filePath))
        else rmdir fs (dirname filePath)
      else rmdir fs (dirname filePath)
    else fs
  else fs

theorem commonStem_eq_right {l r : List String} (h : commonStem l r = r) :
    r.isPrefixOf l = true := by
  induction l generalizing r with
  | nil =>
    cases r with
    | nil => rfl
    | cons b bs => simp [commonStem] at h
  | cons a as ih =>
    cases r with
    | nil => rfl
    | cons b bs =>
      by_cases hab : a = b
      · subst hab
        rw [commonStem, if_pos rfl] at h
        have h2 : commonStem as bs = bs := by
          injection h
        simp [List.isPrefixOf, ih h2]
      · rw [commonStem, if_neg hab] at h
        simp at h

theorem mem_rmdir_dirs {fs : FS} {p d : PyPath} (hd : d ∈ fs.dirs)
    (hnot : d ∉ (rmdir fs p).dirs) : d = p := by
  by_contra hne
  exact hnot (List.mem_filter.mpr ⟨hd, by simpa using hne⟩)

theorem underRoot_spec {root p : PyPath} (h : underRoot root p = true) :
    root.absFlag = p.absFlag ∧ root.comps.isPrefixOf p.comps = true := by
  unfold underRoot commonpath at h
  by_cases hflag : p.absFlag = root.absFlag
  · simp only [hflag, if_pos rfl] at h
    have hc : (⟨root.absFlag, commonStem p.comps root.comps⟩ : PyPath) = root := by
      simpa using h
    have hcomps := congrArg PyPath.comps hc
    exact ⟨hflag.symm, commonStem_eq_right (by simpa using hcomps)⟩
  · simp [hflag] at h

/-- Claim C6: any directory removed by `cleanup_parent_folders` is a lexical
path-prefix descendant of the configured data root, is the immediate parent
of the given file path or that parent's parent, and was empty at the moment
it was removed; the function is total (failures are swallowed by the
catch-all handler, never propagated). -/
theorem C6_cleanup_safe (root : PyPath) (fs : FS) (fp : PyPath) (d : PyPath)
    (hd : d ∈ fs.dirs) (hnot : d ∉ (cleanup_parent_folders root fs fp).dirs) :
    (root.absFlag = d.absFlag ∧ root.comps.isPrefixOf d.comps = true) ∧
    ((d = dirname fp ∧ dirEmpty fs d = true) ∨
      (d = dirname (dirname fp) ∧ dirEmpty (rmdir fs (dirname fp)) d = true)) := by
  unfold cleanup_parent_folders at hnot
  split at hnot
  next h1 =>
    split at hnot
    next h2 =>
      have hemp : dirEmpty fs (dirname fp) = true := by
        simp only [Bool.and_eq_true] at h2
        exact h2.2
      have hu1 := underRoot_spec h1
      have hparent : (root.absFlag = (dirname fp).absFlag ∧
          root.comps.isPrefixOf (dirname fp).comps = true) ∧
          ((dirname fp = dirname fp ∧ dirEmpty fs (dirname fp) = true) ∨
            (dirname fp = dirname (dirname fp) ∧
              dirEmpty (rmdir fs (dirname fp)) (dirname fp) = true)) :=
        ⟨hu1, Or.inl ⟨rfl, hemp⟩⟩
      split at hnot
      next h3 =>
        split at hnot
        next h4 =>
          by_cases hmem1 : d ∈ (rmdir fs (dirname fp)).dirs
          · have hdq := mem_rmdir_dirs hmem1 hnot
            subst hdq
            have hu2 := underRoot_spec h3
            refine ⟨hu2, Or.inr ⟨rfl, ?_⟩⟩
            simp only [Bool.and_eq_true] at h4
            exact h4.2
          · have hdq := mem_rmdir_dirs hd hmem1
            subst hdq
            exact hparent
        next h4 =>
          have hdq := mem_rmdir_dirs hd hnot
          subst hdq
          exact hparent
      next h3 =>
        have hdq := mem_rmdir_dirs hd hnot
        subst hdq
        exact hparent
    next h2 => exact absurd hd hnot
  next h1 => exact absurd hd hnot

/-- Witness for C6: the data root is `/data`; deleting
`/data/library/A/f.zip`'s record leaves an empty `/data/library/A`, which
cleanup removes — and the theorem applies to it. -/
theorem C6_cleanup_safe_witness :
    (⟨true, ["data"]⟩ : PyPath).comps.isPrefixOf
      (⟨true, ["data", "library", "A"]⟩ : PyPath).comps = true :=
  ((C6_cleanup_safe ⟨true, ["data"]⟩
      ⟨[], [⟨true, ["data"]⟩, ⟨true, ["data", "library"]⟩, ⟨true, ["data", "library", "A"]⟩]⟩
      ⟨true, ["data", "library", "A", "f.zip"]⟩
      ⟨true, ["data", "library", "A"]⟩ (by decide) (by decide)).1).2

/-! ## Library mover (`move_gallery_file`, `main.py` lines 93-126) -/

/-- Python truthiness of an optional string (`if new_series:`). -/
def pyTruthy : Option String → Bool
  | none => false
  | some s => s ≠ ""

/-- Target directory of `move_gallery_file` (lines 96-102):
`LIBRARY_DIR / sanitize_filename(artist) [/ sanitize_filename(series)]`,
with `LIBRARY_DIR = DATA_DIR/library`. -/
def target_dir (dataDir : PyPath) (newArtist : String) (newSeries : Option String) : PyPath :=
  if pyTruthy newSeries then
    dataDir.join ["library", sanitize_filename newArtist,
      sanitize_filename (newSeries.getD "")]
  else
    dataDir.join ["library", sanitize_filename newArtist]

/-- New path computed by `move_gallery_file` (lines 104-106):
the target directory joined with `os.path.basename(current_path)`. -/
def move_target (dataDir : PyPath) (galleryPath : PyPath) (newArtist : String)
    (newSeries : Option String) : PyPath :=
  (target_dir dataDir newArtist newSeries).join [basename galleryPath]

/-- Embedding of `shutil.move` on an existing source: relocate the entry. -/
def shutilMove (fs : FS) (src dst : PyPath) : FS :=
  if fs.files.contains src then ⟨dst :: fs.files.filter (· ≠ src), fs.dirs⟩
  else ⟨fs.files, dst :: fs.dirs.filter (· ≠ src)⟩

/-- Lines 110-111: `if not os.path.exists(target_dir): os.makedirs(target_dir)`. -/
def move_makedirs (fs : FS) (td : PyPath) : FS :=
  if !pathExists fs td then mkdirs fs td else fs

/-- Result of one `move_gallery_file` call: the filesystem, the gallery's
`path` column afterwards, and how many physical moves were performed. -/
structure MoveResult where
  fs : FS
  path : PyPath
  moves : Nat
deriving DecidableEq, Repr

/-- Embedding of `move_gallery_file(gallery, new_artist, new_series)`
(`main.py` 93-126): if the resolved absolute current and new paths are
equal, do nothing; otherwise create the target directory if missing, and if
the current path exists move it, update `gallery.path`, and clean up the old
parents (`root` for cleanup is `os.path.abspath(DATA_DIR)`).  OS failures
(which the catch-all `except` turns into no-ops) are not injected. -/
def move_gallery_file (cwd : List String) (dataDir : PyPath) (fs : FS)
    (galleryPath : PyPath) (newArtist : String) (newSeries : Option String) : MoveResult :=
  if abspath cwd galleryPath = abspath cwd (move_target dataDir galleryPath newArtist newSeries) then
    ⟨fs, galleryPath, 0⟩
  else if pathExists (move_makedirs fs (target_dir dataDir newArtist newSeries)) galleryPath then
    ⟨cleanup_parent_folders (abspath cwd dataDir)
        (shutilMove (move_makedirs fs (target_dir dataDir newArtist newSeries)) galleryPath
          (move_target dataDir galleryPath newArtist newSeries))
        galleryPath,
      move_target dataDir galleryPath newArtist newSeries, 1⟩
  else ⟨move_makedirs fs (target_dir dataDir newArtist newSeries), galleryPath, 0⟩

theorem getLast?_append_singleton (l : List String) (a : String) :
    (l ++ [a]).getLast? = some a := by
  induction l with
  | nil => rfl
  | cons b bs ih =>
    rw [List.cons_append, List.getLast?_cons]
    simp [ih]

theorem basename_join_singleton (p : PyPath) (x : String) :
    basename (p.join [x]) = x := by
  unfold basename PyPath.join
  simp [getLast?_append_singleton]

theorem move_target_stable (dataDir galleryPath : PyPath) (a : String) (s : Option String) :
    move_target dataDir (move_target dataDir galleryPath a s) a s =
      move_target dataDir galleryPath a s := by
  unfold move_target
  rw [basename_join_singleton]

theorem mkdirs_self_mem (fs : FS) (p : PyPath) : p ∈ (mkdirs fs p).dirs := by
  unfold mkdirs
  by_cases hc : fs.dirs.contains p = true
  · exact List.mem_append_right _ (by simpa using hc)
  · refine List.mem_append_left _ (List.mem_filter.mpr ⟨?_, by simpa using hc⟩)
    have hself : p.comps ∈ p.comps.inits := (List.mem_inits _ _).mpr List.prefix_rfl
    exact List.mem_map.mpr ⟨p.comps, hself, rfl⟩

theorem pathExists_move_makedirs_self (fs : FS) (td : PyPath) :
    pathExists (move_makedirs fs td) td = true := by
  unfold move_makedirs
  by_cases h : pathExists fs td = true
  · simp [h]
  · simp only [h, Bool.not_false]
    unfold pathExists
    simp only [Bool.false_eq_true] at h
    refine Bool.or_eq_true_iff.mpr (Or.inr ?_)
    simpa using mkdirs_self_mem fs td

theorem move_makedirs_files (fs : FS) (td : PyPath) :
    (move_makedirs fs td).files = fs.files := by
  unfold move_makedirs
  split <;> rfl

/-- Claim C5 counterexample: when the gallery's backing file is missing from
the filesystem, `move_gallery_file` performs no move and leaves
`gallery.path` unchanged, so on the second identical call the current path
still does NOT equal the computed target path — refuting the claim's
"on the second call the current path equals the computed target path" at a
concrete input. -/
theorem C5_counterexample :
    (move_gallery_file ["srv"] ⟨true, ["data"]⟩ ⟨[], []⟩
        ⟨true, ["data", "library", "Old", "f.zip"]⟩ "New" none).path =
      ⟨true, ["data", "library", "Old", "f.zip"]⟩ ∧
    (move_gallery_file ["srv"] ⟨true, ["data"]⟩ ⟨[], []⟩
        ⟨true, ["data", "library", "Old", "f.zip"]⟩ "New" none).moves = 0 ∧
    abspath ["srv"] (⟨true, ["data", "library", "Old", "f.zip"]⟩ : PyPath) ≠
      abspath ["srv"] (move_target ⟨true, ["data"]⟩
        ⟨true, ["data", "library", "Old", "f.zip"]⟩ "New" none) := by
  decide

/-- Claim C5 (amended): `move_gallery_file` is idempotent — across two calls
with identical new artist and series, at most one physical move happens and
the second call is a no-op, changing neither the filesystem nor
`gallery.path`; moreover, whenever the backing file exists (or the paths
already match as resolved absolute paths), the second call's current path
equals the computed target path. When the backing file is missing, the
second call is still a no-op but the paths need not match. -/
theorem C5_amended (cwd : List String) (dataDir : PyPath) (fs : FS) (gpath : PyPath)
    (a : String) (s : Option String) :
    (move_gallery_file cwd dataDir
        (move_gallery_file cwd dataDir fs gpath a s).fs
        (move_gallery_file cwd dataDir fs gpath a s).path a s).fs =
      (move_gallery_file cwd dataDir fs gpath a s).fs ∧
    (move_gallery_file cwd dataDir
        (move_gallery_file cwd dataDir fs gpath a s).fs
        (move_gallery_file cwd dataDir fs gpath a s).path a s).path =
      (move_gallery_file cwd dataDir fs gpath a s).path ∧
    (move_gallery_file cwd dataDir
        (move_gallery_file cwd dataDir fs gpath a s).fs
        (move_gallery_file cwd dataDir fs gpath a s).path a s).moves = 0 ∧
    (move_gallery_file cwd dataDir fs gpath a s).moves ≤ 1 ∧
    (fs.files.contains gpath = true ∨
        abspath cwd gpath = abspath cwd (move_target dataDir gpath a s) →
      abspath cwd (move_gallery_file cwd dataDir fs gpath a s).path =
        abspath cwd (move_target dataDir
          (move_gallery_file cwd dataDir fs gpath a s).path a s)) := by
  by_cases heq : abspath cwd gpath = abspath cwd (move_target dataDir gpath a s)
  · have h1 : move_gallery_file cwd dataDir fs gpath a s = ⟨fs, gpath, 0⟩ := by
      unfold move_gallery_file
      rw [if_pos heq]
    rw [h1]
    dsimp only
    rw [h1]
    exact ⟨rfl, rfl, rfl, Nat.zero_le 1, fun _ => heq⟩
  · by_cases hex :
        pathExists (move_makedirs fs (target_dir dataDir a s)) gpath = true
    · have h1 : move_gallery_file cwd dataDir fs gpath a s =
          ⟨cleanup_parent_folders (abspath cwd dataDir)
            (shutilMove (move_makedirs fs (target_dir dataDir a s)) gpath
              (move_target dataDir gpath a s)) gpath,
            move_target dataDir gpath a s, 1⟩ := by
        unfold move_gallery_file
        rw [if_neg heq, if_pos hex]
      have hstable := move_target_stable dataDir gpath a s
      have h2 : move_gallery_file cwd dataDir
          (cleanup_parent_folders (abspath cwd dataDir)
            (shutilMove (move_makedirs fs (target_dir dataDir a s)) gpath
              (move_target dataDir gpath a s)) gpath)
          (move_target dataDir gpath a s) a s =
          ⟨cleanup_parent_folders (abspath cwd dataDir)
            (shutilMove (move_makedirs fs (target_dir dataDir a s)) gpath
              (move_target dataDir gpath a s)) gpath,
            move_target dataDir gpath a s, 0⟩ := by
        unfold move_gallery_file
        rw [hstable]
        simp
      rw [h1]
      dsimp only
      rw [h2]
      refine ⟨rfl, rfl, rfl, Nat.le_refl 1, fun _ => ?_⟩
      rw [hstable]
    · have h1 : move_gallery_file cwd dataDir fs gpath a s =
          ⟨move_makedirs fs (target_dir dataDir a s), gpath, 0⟩ := by
        unfold move_gallery_file
        rw [if_neg heq, if_neg hex]
      have hmm : move_makedirs (move_makedirs fs (target_dir dataDir a s))
          (target_dir dataDir a s) = move_makedirs fs (target_dir dataDir a s) := by
        have hself := pathExists_move_makedirs_self fs (target_dir dataDir a s)
        generalize hM : move_makedirs fs (target_dir dataDir a s) = M at hself
        unfold move_makedirs
        rw [hself]
        rfl
      have h2 : move_gallery_file cwd dataDir
          (move_makedirs fs (target_dir dataDir a s)) gpath a s =
          ⟨move_makedirs fs (target_dir dataDir a s), gpath, 0⟩ := by
        unfold move_gallery_file
        rw [if_neg heq, hmm, if_neg hex]
      rw [h1]
      dsimp only
      rw [h2]
      refine ⟨rfl, rfl, rfl, Nat.zero_le 1, fun hc => ?_⟩
      rcases hc with hc | hc
      · exfalso
        apply hex
        unfold pathExists
        rw [move_makedirs_files]
        exact Bool.or_eq_true_iff.mpr (Or.inl hc)
      · exact absurd hc heq

/-- Witness for the amended C5 theorem: a concrete two-call run with the
backing file present. -/
theorem C5_amended_witness :
    abspath ["srv"] (move_gallery_file ["srv"] ⟨true, ["data"]⟩
        ⟨[⟨true, ["data", "library", "Old", "f.zip"]⟩], [⟨true, ["data", "library", "Old"]⟩]⟩
        ⟨true, ["data", "library", "Old", "f.zip"]⟩ "New" none).path =
      abspath ["srv"] (move_target ⟨true, ["data"]⟩
        (move_gallery_file ["srv"] ⟨true, ["data"]⟩
          ⟨[⟨true, ["data", "library", "Old", "f.zip"]⟩], [⟨true, ["data", "library", "Old"]⟩]⟩
          ⟨true, ["data", "library", "Old", "f.zip"]⟩ "New" none).path "New" none) :=
  (C5_amended ["srv"] ⟨true, ["data"]⟩
      ⟨[⟨true, ["data", "library", "Old", "f.zip"]⟩], [⟨true, ["data", "library", "Old"]⟩]⟩
      ⟨true, ["data", "library", "Old", "f.zip"]⟩ "New" none).2.2.2.2
    (Or.inl (by decide))

/-! ## Relational model (`database.py`)

Rows carry the columns the verified claims speak about.  A gallery's tag
relationship is modelled by the list of attached tag names; autoincrement
ids are modelled by a `nextId` counter assigned in flush order. -/

structure TagRow where
  id : Nat
  name : String
deriving DecidableEq, Repr

structure SeriesRow where
  id : Nat
  name : String
deriving DecidableEq, Repr

structure CategoryRow where
  id : Nat
  name : String
deriving DecidableEq, Repr

structure StagedRow where
  id : Nat
  filename : String
  path : PyPath
  suggested_title : String
  suggested_artist : Option String
deriving DecidableEq, Repr

structure GalleryRow where
  id : Nat
  filename : String
  path : PyPath
  title : String
  artist : String
  description : Option String
  reading_direction : String
  series_id : Option Nat
  category_id : Option Nat
  status : String
  pages_read : Int
  pages_total : Nat
  tags : List String
deriving DecidableEq, Repr

structure DB where
  staged : List StagedRow
  galleries : List GalleryRow
  series : List SeriesRow
  categories : List CategoryRow
  tags : List TagRow
  nextId : Nat
deriving DecidableEq, Repr

/-- The import metadata, with exactly the fields `schemas.ImportRequest`
declares: there is no `category` field.  Both `importer.py` line 48 and
`main.py` line 493 nevertheless read `.category`, and a Pydantic model
raises `AttributeError` on access of an undeclared field — which is what
makes the import pipeline and the metadata-update endpoint crash before
their interesting steps. -/
structure ImportRequest where
  title : String
  artist : String
  description : Option String
  direction : String
  series : Option String
  tags : List String
deriving DecidableEq, Repr

/-! ## Image-entry listing shared by importer and reader -/

/-- Lower-casing on the character list (Python `str.lower` on ASCII names). -/
def pyLower (s : String) : String :=
  (s.toList.map Char.toLower).asString

/-- Python `str.endswith(suffix)`. -/
def pyEndsWith (s suffixStr : String) : Bool :=
  suffixStr.toList.isSuffixOf s.toList

/-- The image-extension filter used by importer, reader and scanner:
`f.lower().endswith(('.png', '.jpg', '.jpeg', '.webp'))`. -/
def isImageName (f : String) : Bool :=
  pyEndsWith (pyLower f) ".png" || pyEndsWith (pyLower f) ".jpg" ||
    pyEndsWith (pyLower f) ".jpeg" || pyEndsWith (pyLower f) ".webp"

/-- Python string comparison: lexicographic on code points. -/
def lexLe : List Char → List Char → Bool
  | [], _ => true
  | _ :: _, [] => false
  | a :: as, b :: bs =>
    if a.toNat < b.toNat then true
    else if b.toNat < a.toNat then false
    else lexLe as bs

/-- Insertion step of the lexicographic sort. -/
def insertSorted (x : String) : List String → List String
  | [] => [x]
  | y :: ys => if lexLe x.toList y.toList then x :: y :: ys else y :: insertSorted x ys

/-- Python `sorted` on strings (ascending lexicographic). -/
def sortStrings : List String → List String
  | [] => []
  | x :: xs => insertSorted x (sortStrings xs)

/-- `sorted([f for f in z.namelist() if f.lower().endswith(...)])`. -/
def image_entries (names : List String) : List String :=
  sortStrings (names.filter isImageName)

/-! ## Import pipeline (`importer.py`, `import_gallery`) -/

/-- Destination folder computed by the import pipeline (`importer.py` lines
25-28, straight-line code that executes before the crash):
`data_dir/library/<inline-sanitized artist>` — no series component. -/
def import_dest_folder (dataDir : PyPath) (artist : String) : PyPath :=
  dataDir.join ["library", importer_sanitize artist]

/-- Destination path computed by the import pipeline (`importer.py` lines
30-32, also before the crash): the destination folder joined with the
staged archive's basename. -/
def import_dest_path (dataDir : PyPath) (artist : String) (filename : String) : PyPath :=
  (import_dest_folder dataDir artist).join [filename]

/-- Outcome of one `import_gallery` call: the raised-or-returned value, the
database state visible after the request (the committed state, since the
request never reaches a commit), and the filesystem. -/
structure ImportResult where
  outcome : Except String GalleryRow
  db : DB
  fs : FS
deriving Repr

/-- Embedding of `import_gallery(db, staged_id, meta, data_dir)`
(`importer.py` lines 15-124) as the source actually executes it:

1. the staged lookup (line 17) raises `ValueError` when the id is absent;
2. the destination folder `library/<sanitized artist>` is created on disk
   (line 28) — an effect that is never undone;
3. series resolution (lines 34-44) adds and flushes session-local rows,
   but they are never committed: the request aborts, the session is closed
   and rolled back, so they are invisible afterwards and elided here;
4. line 48 reads `meta.category` — a field `schemas.ImportRequest` does
   not declare — raising `AttributeError` (modelled as the error string
   "AttributeError: category").  The Gallery insert (lines 59-70), the tag
   loop (72-78), the step-6 move (83-89), the thumbnail step and the
   StagedFile deletion are all unreachable.

The returned state is the observable one: the committed database unchanged
and the filesystem with only the destination folder created. -/
def import_gallery (db0 : DB) (fs0 : FS) (stagedId : Nat) (meta : ImportRequest)
    (dataDir : PyPath) : ImportResult :=
  match db0.staged.find? (fun st => st.id = stagedId) with
  | none => ⟨.error "Staged file not found", db0, fs0⟩
  | some _ =>
    ⟨.error "AttributeError: category", db0,
      mkdirs fs0 (import_dest_folder dataDir meta.artist)⟩

/-- Claim C1 evaluated on the code as written: the rollback that would
implement the claimed atomicity (`importer.py` lines 84-89) is dead code.
Every import attempt raises before reaching the step-6 move — on a found
staged file, with the `AttributeError` from the missing `category` field —
so the committed database is always unchanged (no Gallery row from any
attempt exists, every StagedFile row survives) and no file is ever moved. -/
theorem C1_code_bug :
    (∀ (db0 : DB) (fs0 : FS) (stagedId : Nat) (meta : ImportRequest) (dataDir : PyPath),
      (import_gallery db0 fs0 stagedId meta dataDir).db = db0 ∧
      (import_gallery db0 fs0 stagedId meta dataDir).fs.files = fs0.files ∧
      ∃ msg, (import_gallery db0 fs0 stagedId meta dataDir).outcome = .error msg) ∧
    (import_gallery ⟨[⟨1, "f.zip", ⟨true, ["data", "input", "f.zip"]⟩, "f", none⟩],
        [], [], [], [], 10⟩
      ⟨[⟨true, ["data", "input", "f.zip"]⟩], []⟩ 1 ⟨"T", "A", none, "RTL", none, []⟩
      ⟨true, ["data"]⟩).outcome = .error "AttributeError: category" := by
  constructor
  · intro db0 fs0 stagedId meta dataDir
    unfold import_gallery
    cases hfind : db0.staged.find? (fun st => st.id = stagedId) with
    | none => exact ⟨rfl, rfl, "Staged file not found", rfl⟩
    | some staged => exact ⟨rfl, rfl, "AttributeError: category", rfl⟩
  · rfl

/-! ## Destination path of the import (claim C3) -/

theorem join_join (p : PyPath) (a b : List String) : (p.join a).join b = p.join (a ++ b) := by
  unfold PyPath.join
  rw [List.append_assoc]

/-- Modelled from the spec's words (§4.1 PathResolver): `sanitize` keeps
letters, digits, space, '-', '_' and returns "Unknown" for empty or
whitespace-only input.  Used only to compare the code's path against the
spec's canonical layout. -/
def sanitize_spec (name : String) : String :=
  if pyStrip name = "" then "Unknown"
  else (name.toList.filter specAllowedChar).asString

/-- Modelled from the spec's words (§4.1 PathResolver):
`canonicalPath(libraryRoot, artist, series?, filename) =
libraryRoot/sanitize(artist)/[sanitize(series)/]filename`. -/
def canonicalPath_spec (libraryRoot : PyPath) (artist : String) (series : Option String)
    (filename : String) : PyPath :=
  match series with
  | some sname => libraryRoot.join [sanitize_spec artist, sanitize_spec sname, filename]
  | none => libraryRoot.join [sanitize_spec artist, filename]

/-- Claim C3 counterexample: for an import request with artist "A" and
non-empty series "S", the destination path the pipeline computes
(`importer.py` lines 25-32, which run before the crash) is
`data/library/A/f.zip`, not the claimed canonical `data/library/A/S/f.zip`;
and the import attempt itself aborts with the missing-field
`AttributeError`, creating only `data/library/A` on disk — no series
directory and no file placed anywhere. -/
theorem C3_counterexample :
    import_dest_path ⟨true, ["data"]⟩ "A" "f.zip" =
      ⟨true, ["data", "library", "A", "f.zip"]⟩ ∧
    import_dest_path ⟨true, ["data"]⟩ "A" "f.zip" ≠
      canonicalPath_spec (PyPath.join ⟨true, ["data"]⟩ ["library"]) "A" (some "S") "f.zip" ∧
    (import_gallery ⟨[⟨1, "f.zip", ⟨true, ["data", "input", "f.zip"]⟩, "f", none⟩],
        [], [], [], [], 10⟩
      ⟨[⟨true, ["data", "input", "f.zip"]⟩], []⟩ 1 ⟨"T", "A", none, "RTL", some "S", []⟩
      ⟨true, ["data"]⟩).outcome = .error "AttributeError: category" ∧
    (import_gallery ⟨[⟨1, "f.zip", ⟨true, ["data", "input", "f.zip"]⟩, "f", none⟩],
        [], [], [], [], 10⟩
      ⟨[⟨true, ["data", "input", "f.zip"]⟩], []⟩ 1 ⟨"T", "A", none, "RTL", some "S", []⟩
      ⟨true, ["data"]⟩).fs.files = [⟨true, ["data", "input", "f.zip"]⟩] ∧
    (⟨true, ["data", "library", "A", "S"]⟩ : PyPath) ∉
      (import_gallery ⟨[⟨1, "f.zip", ⟨true, ["data", "input", "f.zip"]⟩, "f", none⟩],
          [], [], [], [], 10⟩
        ⟨[⟨true, ["data", "input", "f.zip"]⟩], []⟩ 1 ⟨"T", "A", none, "RTL", some "S", []⟩
        ⟨true, ["data"]⟩).fs.dirs := by
  refine ⟨rfl, by decide, rfl, rfl, by decide⟩

/-- Claim C3 (amended): no import completes in the source — reading
`meta.category` (absent from `schemas.ImportRequest`) raises
`AttributeError` at `importer.py` line 48 — and the destination the
pipeline computes before crashing is
`LibraryRoot/<inline-sanitized artist>/<original filename>` with no series
subdirectory, whatever the series; the only filesystem effect of an import
attempt is the creation of that (series-free) destination folder, with no
file ever placed. -/
theorem C3_amended (db0 : DB) (fs0 : FS) (stagedId : Nat) (meta : ImportRequest)
    (dataDir : PyPath) (st : StagedRow)
    (hfind : db0.staged.find? (fun s => s.id = stagedId) = some st) :
    (import_gallery db0 fs0 stagedId meta dataDir).fs =
      mkdirs fs0 (import_dest_folder dataDir meta.artist) ∧
    (import_gallery db0 fs0 stagedId meta dataDir).fs.files = fs0.files ∧
    (import_gallery db0 fs0 stagedId meta dataDir).outcome =
      .error "AttributeError: category" ∧
    import_dest_path dataDir meta.artist (basename st.path) =
      dataDir.join ["library", importer_sanitize meta.artist, basename st.path] := by
  unfold import_gallery
  rw [hfind]
  exact ⟨rfl, rfl, rfl, join_join dataDir ["library", importer_sanitize meta.artist]
    [basename st.path]⟩

/-- Witness for the amended C3 theorem at a concrete import whose metadata
carries a non-empty series. -/
theorem C3_amended_witness :
    (import_gallery ⟨[⟨1, "f.zip", ⟨true, ["data", "input", "f.zip"]⟩, "f", none⟩],
        [], [], [], [], 10⟩
      ⟨[], []⟩ 1 ⟨"T", "A", none, "RTL", some "S", []⟩ ⟨true, ["data"]⟩).outcome =
      .error "AttributeError: category" :=
  (C3_amended ⟨[⟨1, "f.zip", ⟨true, ["data", "input", "f.zip"]⟩, "f", none⟩],
      [], [], [], [], 10⟩
    ⟨[], []⟩ 1 ⟨"T", "A", none, "RTL", some "S", []⟩ ⟨true, ["data"]⟩
    ⟨1, "f.zip", ⟨true, ["data", "input", "f.zip"]⟩, "f", none⟩ rfl).2.2.1

/-! ## Blank tag handling (claim C9) -/

/-- Decidable equality of `Except` values, for evaluating reader and
also importer outcomes on concrete inputs. -/
instance {ε α : Type} [DecidableEq ε] [DecidableEq α] : DecidableEq (Except ε α) := fun a b =>
  match a, b with
  | .ok x, .ok y =>
    if h : x = y then isTrue (by rw [h]) else isFalse (fun hc => h (Except.ok.inj hc))
  | .error x, .error y =>
    if h : x = y then isTrue (by rw [h]) else isFalse (fun hc => h (Except.error.inj hc))
  | .ok _, .error _ => isFalse (fun hc => Except.noConfusion hc)
  | .error _, .ok _ => isFalse (fun hc => Except.noConfusion hc)

/-- Python exceptions the reader can raise: FastAPI `HTTPException`s (which
subclass `Exception`) and zip-handling errors. -/
inductive PyExc where
  | httpExc (status : Nat) (detail : String)
  | zipError
deriving DecidableEq, Repr

/-- Embedding of `get_page_image(db, gallery_id, page_num)` (`reader.py`
lines 6-34).  Gallery lookup and the on-disk existence check run before the
`try` block; everything inside the `try` — zip opening (`zipNames = none`
models a raising open) and the `HTTPException(404, "Page not found")`
raised for an out-of-range page — is caught by the `except Exception`
clause, `HTTPException` being an `Exception` subclass, and re-raised as
`HTTPException(500, "Error reading gallery archive")`.  On success the
bytes read are modelled by the entry name. -/
def get_page_image (galleries : List GalleryRow) (fs : FS)
    (zipNames : Option (List String)) (galleryId : Nat) (pageNum : Int) :
    Except PyExc String :=
  match galleries.find? (fun g => g.id = galleryId) with
  | none => .error (.httpExc 404 "Gallery not found")
  | some gallery =>
    if !pathExists fs gallery.path then
      .error (.httpExc 404 "Gallery file missing on disk")
    else
      match
        (match zipNames with
          | none => (.error PyExc.zipError : Except PyExc String)
          | some names =>
            if pageNum < 1 ∨ pageNum > (image_entries names).length then
              .error (.httpExc 404 "Page not found")
            else
              .ok ((image_entries names).getD (pageNum - 1).toNat "")) with
      | .ok v => .ok v
      | .error _ => .error (.httpExc 500 "Error reading gallery archive")

/-- Claim C2 evaluated at the failing inputs: for a gallery whose archive
holds 3 image entries, `pageNumber = 4` and `pageNumber = 0` both surface
as `HTTPException(500, "Error reading gallery archive")` — the very same
error a corrupted (unopenable) archive produces — because the reader's own
404 "Page not found" is swallowed by its catch-all; only the gallery-absent
error stays distinct, and in-range reads still work. -/
theorem C2_code_bug :
    get_page_image [⟨1, "f.zip", ⟨true, ["data", "library", "A", "f.zip"]⟩, "T", "A",
        none, "RTL", none, none, "New", 0, 3, []⟩]
      ⟨[⟨true, ["data", "library", "A", "f.zip"]⟩], []⟩
      (some ["p1.jpg", "p2.jpg", "p3.jpg"]) 1 4 =
      .error (.httpExc 500 "Error reading gallery archive") ∧
    get_page_image [⟨1, "f.zip", ⟨true, ["data", "library", "A", "f.zip"]⟩, "T", "A",
        none, "RTL", none, none, "New", 0, 3, []⟩]
      ⟨[⟨true, ["data", "library", "A", "f.zip"]⟩], []⟩
      (some ["p1.jpg", "p2.jpg", "p3.jpg"]) 1 0 =
      .error (.httpExc 500 "Error reading gallery archive") ∧
    get_page_image [⟨1, "f.zip", ⟨true, ["data", "library", "A", "f.zip"]⟩, "T", "A",
        none, "RTL", none, none, "New", 0, 3, []⟩]
      ⟨[⟨true, ["data", "library", "A", "f.zip"]⟩], []⟩
      none 1 2 =
      .error (.httpExc 500 "Error reading gallery archive") ∧
    get_page_image [⟨1, "f.zip", ⟨true, ["data", "library", "A", "f.zip"]⟩, "T", "A",
        none, "RTL", none, none, "New", 0, 3, []⟩]
      ⟨[⟨true, ["data", "library", "A", "f.zip"]⟩], []⟩
      (some ["p1.jpg", "p2.jpg", "p3.jpg"]) 2 1 =
      .error (.httpExc 404 "Gallery not found") ∧
    get_page_image [⟨1, "f.zip", ⟨true, ["data", "library", "A", "f.zip"]⟩, "T", "A",
        none, "RTL", none, none, "New", 0, 3, []⟩]
      ⟨[⟨true, ["data", "library", "A", "f.zip"]⟩], []⟩
      (some ["p1.jpg", "p2.jpg", "p3.jpg"]) 1 2 = .ok "p2.jpg" := by
  refine ⟨by decide, by decide, by decide, by decide, by decide⟩

/-! ## Staging scanner guess (`scanner.py` lines 27-41) — claim C7 -/

/-- Python `str.find` restricted to a single character known to be present:
the first index. -/
def idxOfChar (s : String) (c : Char) : Nat :=
  s.toList.findIdx (· = c)

/-- Python slice `s[a:b]` (with non-negative bounds). -/
def pySlice (s : String) (a b : Nat) : String :=
  ((s.toList.drop a).take (b - a)).asString

/-- Python slice `s[a:]`. -/
def pySliceFrom (s : String) (a : Nat) : String :=
  (s.toList.drop a).asString

/-- One replacement-scan step of Python `str.replace`, with fuel for
structural termination (fuel = input length always suffices since each
step consumes at least one character). -/
def replaceFuel (pat rep : List Char) : Nat → List Char → List Char
  | _, [] => []
  | 0, cs => cs
  | fuel + 1, c :: rest =>
    if pat.isPrefixOf (c :: rest) then
      rep ++ replaceFuel pat rep fuel (rest.drop (pat.length - 1))
    else c :: replaceFuel pat rep fuel rest

/-- Python `s.replace(pat, rep)` for a non-empty pattern: replace every
non-overlapping occurrence, scanning left to right. -/
def pyReplace (s pat rep : String) : String :=
  (replaceFuel pat.toList rep.toList s.toList.length s.toList).asString

/-- Python `os.path.splitext(s)[0]` for a bare filename: the name without
its extension; leading dots never start an extension. -/
def splitextRoot (s : String) : String :=
  if (s.toList.dropWhile (· = '.')).contains '.' then
    (s.toList.takeWhile (· = '.') ++
      ((((s.toList.dropWhile (· = '.')).reverse.dropWhile (· ≠ '.')).drop 1).reverse)).asString
  else s

/-- Embedding of the filename-guess logic of `scan_input_directory`
(`scanner.py` lines 27-41): start from the filename without extension; when
the filename contains both "]" and "[", take the characters between the
first "[" and the first "]" as the artist (untrimmed), and as the title the
remainder after "]" with every literal ".zip" and ".cbz" substring removed
and whitespace stripped.  (The `try/except` around this block guards string
operations that cannot raise.) -/
def scan_guess (filename : String) : Option String × String :=
  if filename.toList.contains ']' && filename.toList.contains '[' then
    (some (pySlice filename (idxOfChar filename '[' + 1) (idxOfChar filename ']')),
      pyStrip (pyReplace (pyReplace (pySliceFrom filename (idxOfChar filename ']' + 1))
        ".zip" "") ".cbz" ""))
  else (none, splitextRoot filename)

/-- The StagedFile row built for a new physical file (`scanner.py` lines
43-48). -/
def scanned_staged_file (inputDir : PyPath) (nid : Nat) (filename : String) : StagedRow :=
  ⟨nid, filename, inputDir.join [filename], (scan_guess filename).2, (scan_guess filename).1⟩

/-- Claim C7 counterexample: for `"[ MikaArt ] Lost Days.zip"` the guessed
artist is the raw bracket content `" MikaArt "`, NOT trimmed of surrounding
whitespace as the claim states; and for `"[A] B.ZIP"` the upper-case
extension survives in the title because only the literal lowercase ".zip"
and ".cbz" substrings are removed, refuting the
extension-stripped-case-insensitively part. -/
theorem C7_counterexample :
    (scanned_staged_file ⟨true, ["data", "input"]⟩ 1
        "[ MikaArt ] Lost Days.zip").suggested_artist = some " MikaArt " ∧
    (" MikaArt " : String) ≠ "MikaArt" ∧
    (scanned_staged_file ⟨true, ["data", "input"]⟩ 2 "[A] B.ZIP").suggested_title =
      "B.ZIP" ∧
    ("B.ZIP" : String) ≠ "B" := by
  refine ⟨rfl, by decide, rfl, by decide⟩

/-- Claim C7 (amended): the scanner's guess takes the raw (untrimmed)
content between the first "[" and the first "]" as the artist, and as the
title the remainder after "]" with only the literal lowercase ".zip"/".cbz"
substrings removed and surrounding whitespace stripped — so the
"[MikaArt] Lost Days.zip" scenario holds, but bracket content is not
trimmed and upper-case extensions are not stripped; filenames lacking "["
or "]" get the extension-free filename as title and no artist. -/
theorem C7_amended :
    (scanned_staged_file ⟨true, ["data", "input"]⟩ 1
        "[MikaArt] Lost Days.zip").suggested_artist = some "MikaArt" ∧
    (scanned_staged_file ⟨true, ["data", "input"]⟩ 1
        "[MikaArt] Lost Days.zip").suggested_title = "Lost Days" ∧
    (∀ fn : String, ('[' ∉ fn.toList ∨ ']' ∉ fn.toList) →
      scan_guess fn = (none, splitextRoot fn)) ∧
    (scanned_staged_file ⟨true, ["data", "input"]⟩ 3 "Lost Days.cbz").suggested_title =
      "Lost Days" ∧
    (scanned_staged_file ⟨true, ["data", "input"]⟩ 3 "Lost Days.cbz").suggested_artist =
      none := by
  refine ⟨rfl, rfl, ?_, rfl, rfl⟩
  intro fn hfn
  unfold scan_guess
  rw [if_neg ?_]
  intro hcontra
  rw [Bool.and_eq_true] at hcontra
  rcases hfn with hfn | hfn
  · exact hfn (List.mem_of_elem_eq_true hcontra.2)
  · exact hfn (List.mem_of_elem_eq_true hcontra.1)

/-- Witness for the amended C7 theorem: its universally quantified part at
a bracket-free filename. -/
theorem C7_amended_witness :
    scan_guess "Lost Days.zip" = (none, splitextRoot "Lost Days.zip") :=
  C7_amended.2.2.1 "Lost Days.zip" (Or.inl (by decide))

/-! ## Auto-backup scheduler decision (`main.py` lines 175-192) — claim C8 -/

/-- Python `str.isdigit()` on the settings values (ASCII digits). -/
def is_digit_str (s : String) : Bool :=
  s ≠ "" && s.toList.all Char.isDigit

/-- Numeric value of an all-digit string (what `int(v)` returns there). -/
def digitsToNat : List Char → Nat → Nat
  | [], acc => acc
  | c :: cs, acc => digitsToNat cs (acc * 10 + (c.toNat - 48))

/-- Python `int(v)` for a digit string. -/
def pyInt (s : String) : Nat :=
  digitsToNat s.toList 0

/-- Line 184: `enabled = s_enabled.value == "true" if s_enabled else False`. -/
def setting_enabled : Option String → Bool
  | some v => v = "true"
  | none => false

/-- Line 185: `days_freq = int(s_freq.value) if s_freq and
s_freq.value.isdigit() else 7`. -/
def setting_freq_days : Option String → Nat
  | some v => if is_digit_str v then pyInt v else 7
  | none => 7

/-- Line 186: `last_ts = int(s_last.value) if s_last and
s_last.value.isdigit() else 0`. -/
def setting_last_ts : Option String → Nat
  | some v => if is_digit_str v then pyInt v else 0
  | none => 0

/-- The trigger decision of one scheduler wake (lines 188-190):
`enabled and (int(time.time()) - last_ts) > (days_freq * 86400)`. -/
def backup_due (e f l : Option String) (now : Nat) : Bool :=
  setting_enabled e &&
    decide ((now : Int) - (setting_last_ts l : Int) > (setting_freq_days f : Int) * 86400)

/-- Claim C8 counterexample: with backups enabled, default frequency 7 days
and last timestamp 0, a wake at exactly `now = 7 * 86400` satisfies
`now - last >= frequencyDays * 86400` yet triggers NO backup — the code's
comparison is strict `>`, so the claimed boundary case does not trigger. -/
theorem C8_counterexample :
    backup_due (some "true") none (some "0") (7 * 86400) = false ∧
    (7 * 86400 : Int) - (setting_last_ts (some "0") : Int) ≥
      (setting_freq_days none : Int) * 86400 := by
  decide

/-- Claim C8 (amended): on each wake a backup is triggered iff the
`auto_backup_enabled` setting is literally "true" and
`now - last > frequencyDays * 86400` holds STRICTLY (the boundary case of
equality does not trigger); `frequencyDays` defaults to 7 and
`lastBackupTimestamp` to 0 when the setting is absent or non-numeric. -/
theorem C8_amended (fS lS : Option String) (now : Nat) :
    (backup_due (some "true") fS lS now = true ↔
      (now : Int) - (setting_last_ts lS : Int) > (setting_freq_days fS : Int) * 86400) ∧
    backup_due none fS lS now = false ∧
    backup_due (some "false") fS lS now = false ∧
    setting_freq_days none = 7 ∧
    setting_freq_days (some "weekly") = 7 ∧
    setting_last_ts none = 0 ∧
    setting_last_ts (some "unset") = 0 := by
  refine ⟨?_, ?_, ?_, rfl, by decide, rfl, by decide⟩
  · unfold backup_due setting_enabled
    simp
  · unfold backup_due setting_enabled
    simp
  · unfold backup_due setting_enabled
    simp

/-- Witness for the amended C8 theorem: one second past the boundary the
backup does trigger. -/
theorem C8_amended_witness :
    backup_due (some "true") none (some "0") (7 * 86400 + 1) = true :=
  (C8_amended none (some "0") (7 * 86400 + 1)).1.mpr (by decide)

/-! ## Progress update (`main.py` lines 457-466) — claim C10 -/

/-- Embedding of the `update_progress` endpoint body on the fetched row:
`g.pages_read = page`, then `status` becomes "Completed" when
`g.pages_total` is truthy and `page >= g.pages_total`, else "Reading" when
`page > 1`, else "New". -/
def update_progress (g : GalleryRow) (page : Int) : GalleryRow :=
  { g with
      pages_read := page,
      status :=
        if g.pages_total ≠ 0 ∧ page ≥ (g.pages_total : Int) then "Completed"
        else if page > 1 then "Reading" else "New" }

/-- Claim C10: after `update_progress`, `pages_read` equals the requested
page and `status` is exactly "Completed" when `pagesTotal > 0 ∧ page ≥
pagesTotal`, else "Reading" when `page > 1`, else "New"; every other field
is unchanged; and the same endpoint moves status both forward (New →
Completed) and backward (Completed → New). -/
theorem C10_progress_status (g : GalleryRow) (page : Int) :
    (update_progress g page).pages_read = page ∧
    (update_progress g page).status =
      (if 0 < g.pages_total ∧ page ≥ (g.pages_total : Int) then "Completed"
        else if page > 1 then "Reading" else "New") ∧
    (update_progress g page).id = g.id ∧
    (update_progress g page).filename = g.filename ∧
    (update_progress g page).path = g.path ∧
    (update_progress g page).title = g.title ∧
    (update_progress g page).artist = g.artist ∧
    (update_progress g page).description = g.description ∧
    (update_progress g page).reading_direction = g.reading_direction ∧
    (update_progress g page).series_id = g.series_id ∧
    (update_progress g page).category_id = g.category_id ∧
    (update_progress g page).pages_total = g.pages_total ∧
    (update_progress g page).tags = g.tags ∧
    (update_progress ⟨1, "f", ⟨true, []⟩, "T", "A", none, "LTR", none, none,
      "Completed", 10, 10, []⟩ 1).status = "New" ∧
    (update_progress ⟨1, "f", ⟨true, []⟩, "T", "A", none, "LTR", none, none,
      "New", 0, 10, []⟩ 10).status = "Completed" := by
  refine ⟨rfl, ?_, rfl, rfl, rfl, rfl, rfl, rfl, rfl, rfl, rfl, rfl, rfl,
    by decide, by decide⟩
  show (if g.pages_total ≠ 0 ∧ page ≥ (g.pages_total : Int) then "Completed"
      else if page > 1 then "Reading" else "New") =
    (if 0 < g.pages_total ∧ page ≥ (g.pages_total : Int) then "Completed"
      else if page > 1 then "Reading" else "New")
  by_cases h : g.pages_total ≠ 0 ∧ page ≥ (g.pages_total : Int)
  · rw [if_pos h, if_pos ⟨Nat.pos_of_ne_zero h.1, h.2⟩]
  · have hneg : ¬(0 < g.pages_total ∧ page ≥ (g.pages_total : Int)) :=
      fun hc => h ⟨Nat.pos_iff_ne_zero.mp hc.1, hc.2⟩
    rw [if_neg h, if_neg hneg]

end MangaServer
